import Mathlib

/-!
Verification of the ingredient-resolution pipeline of `scraper/scraper.py`
(`Label-Reader-and-Analyzer`).

The Python source is shallowly embedded below.  Strings are Lean `String`s,
and every string operation the program performs (strip, lower, split,
substring search, slicing, regex search for the additive-code pattern) is
written out explicitly over the underlying `List Char`, mirroring the
Python semantics on the ASCII texts the program handles.  Network access
is modelled by oracle functions passed to the adapters: an oracle maps the
query string an adapter would fetch to the already-parsed payload of the
response (`none` models "no response after retries" as well as a payload
the adapter's `try`-block rejects, which the code treats identically).
Python dicts used as lookup tables (`ins_data`, `banned_lookup`) are
modelled as `String → Option _` maps; a JSON object field that may be
absent is an `Option` field.
-/

namespace Scraper

/-! ## Character-level string helpers (Python semantics) -/

/-- Python `str.strip` on one side: drop leading whitespace. -/
def dropWs (l : List Char) : List Char := l.dropWhile Char.isWhitespace

/-- Python `str.strip`: drop whitespace from both ends. -/
def pyStrip (s : String) : String :=
  String.mk (((s.data.dropWhile Char.isWhitespace).reverse.dropWhile Char.isWhitespace).reverse)

/-- Python `str.lower` (ASCII model). -/
def pyLower (s : String) : String := String.mk (s.data.map Char.toLower)

/-- Python slicing `s[:n]` (by characters). -/
def pySlice (s : String) (n : Nat) : String := String.mk (s.data.take n)

/-- Python `s[:-k]` for `k > 0`: all characters but the last `k`. -/
def pyDropRight (s : String) (k : Nat) : String := String.mk (s.data.take (s.data.length - k))

/-- Python `s.endswith(suf)`. -/
def pyEndsWith (s suf : String) : Bool := suf.data.isSuffixOf s.data

/-- Python `s.endswith(".")`, the form the source uses: last character is a period. -/
def endsWithDot (s : String) : Bool := decide (s.data.getLast? = some '.')

/-- Substring test `pat ⊆ t` on character lists (Python `pat in t`). -/
def subList (pat : List Char) : List Char → Bool
  | [] => pat.isEmpty
  | c :: rest => pat.isPrefixOf (c :: rest) || subList pat rest

/-- Python `pat in t` for strings. -/
def strContainsSub (t pat : String) : Bool := subList pat.data t.data

/-- `re.sub(r'\s+', ' ', ·)`: collapse each whitespace run to a single space.
Fuel-driven so that it is structural; fuel `l.length` always suffices. -/
def collapseWsAux : Nat → List Char → List Char
  | 0, _ => []
  | _ + 1, [] => []
  | fuel + 1, c :: rest =>
    if c.isWhitespace then ' ' :: collapseWsAux fuel (rest.dropWhile Char.isWhitespace)
    else c :: collapseWsAux fuel rest

def collapseWs (s : String) : String := String.mk (collapseWsAux s.data.length s.data)

/-- Scan to just past the first `']'`, or `none` if there is none. -/
def dropThruClose : List Char → Option (List Char)
  | [] => none
  | c :: rest => if c = ']' then some rest else dropThruClose rest

/-- `re.sub(r'\[[^\]]*\]', '', ·)`: remove every bracketed span `[...]`
(leftmost `[` to the first following `]`; a `[` with no later `]` stays).
Fuel-driven structural recursion; fuel `l.length` suffices. -/
def removeBracketsAux : Nat → List Char → List Char
  | 0, l => l
  | _ + 1, [] => []
  | fuel + 1, c :: rest =>
    if c = '[' then
      match dropThruClose rest with
      | some rest2 => removeBracketsAux fuel rest2
      | none => c :: rest
    else c :: removeBracketsAux fuel rest

def removeBrackets (l : List Char) : List Char := removeBracketsAux l.length l

/-- Python `str.split(sep)` for a non-empty separator, by fuel (fuel
`l.length + 1` suffices; each step consumes at least one character). -/
def splitOnAux (sep : List Char) : Nat → List Char → List (List Char)
  | _, [] => [[]]
  | 0, l => [l]
  | fuel + 1, c :: rest =>
    if sep.isPrefixOf (c :: rest) then
      [] :: splitOnAux sep fuel (rest.drop (sep.length - 1))
    else
      match splitOnAux sep fuel rest with
      | [] => [[c]]
      | h :: t => (c :: h) :: t

def pySplitOn (s sep : String) : List String :=
  (splitOnAux sep.data (s.data.length + 1) s.data).map String.mk

/-- Python `sep.join(xs)`. -/
def pyJoin (sep : String) (xs : List String) : String :=
  String.mk (List.intercalate sep.data (xs.map String.data))

/-- Models Python stdlib `html.unescape`, restricted to the five predefined
XML entities (`&amp; &lt; &gt; &quot; &#39;`); it is the identity on
entity-free text, which is all the texts of the verified claims contain.
Fuel-driven; fuel `l.length` suffices. -/
def unescapeAux : Nat → List Char → List Char
  | 0, l => l
  | _ + 1, [] => []
  | fuel + 1, c :: rest =>
    if c = '&' then
      if ['a', 'm', 'p', ';'].isPrefixOf rest then '&' :: unescapeAux fuel (rest.drop 4)
      else if ['l', 't', ';'].isPrefixOf rest then '<' :: unescapeAux fuel (rest.drop 3)
      else if ['g', 't', ';'].isPrefixOf rest then '>' :: unescapeAux fuel (rest.drop 3)
      else if ['q', 'u', 'o', 't', ';'].isPrefixOf rest then '"' :: unescapeAux fuel (rest.drop 5)
      else if ['#', '3', '9', ';'].isPrefixOf rest then Char.ofNat 39 :: unescapeAux fuel (rest.drop 4)
      else '&' :: unescapeAux fuel rest
    else c :: unescapeAux fuel rest

def unescapeHtml (s : String) : String := String.mk (unescapeAux s.data.length s.data)

/-! ## `clean_text`, `normalize_key`, `first_sentences` -/

/-- `clean_text`: collapse whitespace, strip `[...]` citation markers, trim. -/
def clean_text (s : String) : String :=
  if s = "" then ""
  else pyStrip (String.mk (removeBrackets (collapseWs s).data))

/-- `normalize_key`: `re.sub(r'\s+', ' ', unescape(str(s or "").strip().lower()))`. -/
def normalize_key (s : String) : String :=
  collapseWs (unescapeHtml (pyLower (pyStrip s)))

/-- `first_sentences`: first `n` `". "`-separated sentences, trimmed, with a
final period appended when missing. -/
def first_sentences (text : String) (n : Nat) : String :=
  if text = "" then ""
  else
    let sentences := pySplitOn text ". "
    let out := pyStrip (pyJoin ". " (sentences.take n))
    if endsWithDot out then out else out ++ "."

/-! ## Heuristics: `looks_like_food_use`, `normalize_query_variants` -/

/-- The fixed keyword vocabulary of `looks_like_food_use`. -/
def FOOD_KWS : List String :=
  ["food", "used in", "cooking", "ingredient", "additive", "seasoning",
   "flavour", "flavor", "preservative", "spice", "culinary", "color", "colour",
   "sweetener", "thickener", "oil", "flour", "dye", "coloring", "used as"]

/-- `looks_like_food_use`: case-insensitive substring match against the
fixed vocabulary; empty text is never relevant. -/
def looks_like_food_use (text : String) : Bool :=
  if text = "" then false
  else FOOD_KWS.any (fun k => strContainsSub (pyLower text) k)

/-- The suffix list of `normalize_query_variants` (note: the source lists
`"powder"` twice). -/
def SUFFIXES : List String :=
  ["powder", "powdered", "flour", "meal", "extract", "oil", "powder", "crushed"]

/-- `normalize_query_variants`: the stripped input first, then the input
with each matching qualifier suffix removed, then one singular/plural
toggle.  The Python generator is rendered as the list of all its yields. -/
def normalize_query_variants (q0 : String) : List String :=
  let q := pyStrip q0
  let suffixVariants := SUFFIXES.filterMap (fun s =>
    if pyEndsWith (pyLower q) (" " ++ s) then some (pyDropRight q (s.length + 1)) else none)
  let plural := if pyEndsWith q "s" then pyDropRight q 1 else q ++ "s"
  q :: (suffixVariants ++ [plural])

/-! ## INS/E-code utilities -/

/-- `\s*` then `(\d+)`: skip whitespace; the capture group is the maximal
digit run, `none` when no digit follows. -/
def skipWsChars : List Char → List Char
  | [] => []
  | c :: rest => if c.isWhitespace then skipWsChars rest else c :: rest

def takeDigits : List Char → List Char
  | [] => []
  | c :: rest => if c.isDigit then c :: takeDigits rest else []

/-- One anchored attempt of `re.search(r'(?:E|INS)\s*(\d+)', ·, re.I)` at the
head of the list: an `E`/`e`, or an `INS` token (case-insensitive), then
optional whitespace, then at least one digit; the group is the digit run. -/
def insMatchAt : List Char → Option String
  | [] => none
  | c :: rest =>
    if c.toLower = 'e' then
      let ds := takeDigits (skipWsChars rest)
      if ds = [] then none else some (String.mk ds)
    else
      match c :: rest with
      | c1 :: c2 :: c3 :: rest3 =>
        if c1.toLower = 'i' ∧ c2.toLower = 'n' ∧ c3.toLower = 's' then
          let ds := takeDigits (skipWsChars rest3)
          if ds = [] then none else some (String.mk ds)
        else none
      | _ => none

/-- Unanchored leftmost search, as `re.search` performs it. -/
def insSearch : List Char → Option String
  | [] => none
  | c :: rest =>
    match insMatchAt (c :: rest) with
    | some g => some g
    | none => insSearch rest

/-- `numeric_ins_from_token`: `m = re.search(r'(?:E|INS)\s*(\d+)', token, re.I)`,
returning `m.group(1)`. -/
def numeric_ins_from_token (token : String) : Option String := insSearch token.data

/-- A regulatory-table entry; each field models the similarly named dict key,
`none` when the key is absent. -/
structure InsEntry where
  name : Option String
  function : Option String
  approved : Option String
deriving DecidableEq, Repr

/-- The built-in curated table `FALLBACK_INS`. -/
def FALLBACK_INS : String → Option InsEntry := fun code =>
  if code = "621" then
    some ⟨some "Monosodium glutamate", some "flavour enhancer", some "USA, European Union, India"⟩
  else if code = "330" then
    some ⟨some "Citric acid", some "food acid", some "USA, European Union, India"⟩
  else none

/-- `build_ins_description`, including the `.get` defaults. -/
def build_ins_description (entry : InsEntry) (ins_num : String) : String :=
  let name := entry.name.getD ("INS " ++ ins_num)
  let function := entry.function.getD "food additive"
  let approved := entry.approved.getD "various countries"
  name ++ " (INS " ++ ins_num ++ "). is used as " ++ function ++ ". Approved in: " ++ approved

/-! ## Python truthiness combinators for the dict lookups -/

/-- Python `a or b` on optional strings: `a` unless it is `None` or empty. -/
def pyOrStr (a b : Option String) : Option String :=
  match a with
  | some s => if s = "" then b else some s
  | none => b

/-- Python truthiness of an optional string. -/
def pyTruthyStr (a : Option String) : Bool :=
  match a with
  | some s => decide (s ≠ "")
  | none => false

/-- Python `a or b` on optional table entries (`ins_data.get(n) or
FALLBACK_INS.get(n)`).  A present entry is a non-empty dict in the table
format, hence truthy. -/
def entryOr (a b : Option InsEntry) : Option InsEntry :=
  match a with
  | some e => some e
  | none => b

/-! ## Source adapters over network oracles

Each adapter's network interaction is an oracle from the query term it
would fetch (the URL is an injective function of that term) to the parsed
payload, `none` standing for no response (or a payload the `try` block
rejects, treated identically by the code). -/

/-- A DuckDuckGo JSON payload: the four inspected fields plus the
related-topics list. -/
inductive DdgTopic where
  | nonDict
  | dict (text : Option String)
deriving DecidableEq, Repr

structure DdgResponse where
  Abstract : Option String
  Answer : Option String
  Definition : Option String
  AbstractText : Option String
  RelatedTopics : List DdgTopic
deriving DecidableEq, Repr

/-- The six food-biased rewrites `ddg_api_snippet` fetches, in order. -/
def ddg_queries (query : String) : List String :=
  [query ++ " food additive", query ++ " ingredient", query ++ " food use",
   query ++ " cooking", query ++ " edible", query ++ " seasoning"]

/-- The field order `("Abstract", "Answer", "Definition", "AbstractText")`. -/
def ddg_fields (d : DdgResponse) : List (Option String) :=
  [d.Abstract, d.Answer, d.Definition, d.AbstractText]

/-- The inner field loop of `ddg_api_snippet`. -/
def scanDdgFields : List (Option String) → Option String
  | [] => none
  | f :: rest =>
    let txt := clean_text (f.getD "")
    if txt ≠ "" ∧ looks_like_food_use txt then some (pySlice (first_sentences txt 2) 400)
    else scanDdgFields rest

/-- The related-topics loop of `ddg_api_snippet` (non-dict topics skipped). -/
def scanTopics : List DdgTopic → Option String
  | [] => none
  | .nonDict :: rest => scanTopics rest
  | .dict t :: rest =>
    let txt := clean_text (t.getD "")
    if txt ≠ "" ∧ looks_like_food_use txt then some (pySlice (first_sentences txt 2) 400)
    else scanTopics rest

/-- What one query of `ddg_api_snippet`'s loop yields. -/
def ddgQueryHit (fetch : String → Option DdgResponse) (q : String) : Option String :=
  match fetch q with
  | none => none
  | some data =>
    match scanDdgFields (ddg_fields data) with
    | some out => some out
    | none => scanTopics data.RelatedTopics

/-- The query loop of `ddg_api_snippet`. -/
def ddgGo (fetch : String → Option DdgResponse) : List String → String
  | [] => ""
  | q :: rest =>
    match ddgQueryHit fetch q with
    | some out => out
    | none => ddgGo fetch rest

/-- `ddg_api_snippet`: try the six contextual rewrites in order. -/
def ddg_api_snippet (fetch : String → Option DdgResponse) (query : String) : String :=
  ddgGo fetch (ddg_queries query)

/-- What one variant of `wikipedia_summary`'s loop yields: the first two
sentences of a non-empty cleaned extract. -/
def summaryVariantHit (fetch : String → Option String) (q : String) : Option String :=
  match fetch q with
  | none => none
  | some raw =>
    let extract := clean_text raw
    if extract = "" then none else some (first_sentences extract 2)

/-- The variant loop of `wikipedia_summary`. -/
def summaryGo (fetch : String → Option String) : List String → String
  | [] => ""
  | q :: rest =>
    match summaryVariantHit fetch q with
    | some out => out
    | none => summaryGo fetch rest

/-- `wikipedia_summary`: try every query variant in order. -/
def wikipedia_summary (fetch : String → Option String) (query : String) : String :=
  if query = "" then "" else summaryGo fetch (normalize_query_variants query)

/-- The paragraph loop of `wikipedia_fallback`: first of the leading six
paragraphs that is non-empty after cleaning and food-relevant or longer
than 40 characters. -/
def scanParas : List String → Option String
  | [] => none
  | p :: rest =>
    let txt := clean_text p
    if txt = "" then scanParas rest
    else if looks_like_food_use txt || decide (40 < txt.length) then
      some (pySlice (first_sentences txt 2) 400)
    else scanParas rest

/-- What one variant of `wikipedia_fallback`'s loop yields. -/
def fallbackVariantHit (fetch : String → Option (List String)) (q : String) : Option String :=
  match fetch q with
  | none => none
  | some paras => scanParas (paras.take 6)

/-- The variant loop of `wikipedia_fallback`. -/
def fallbackGo (fetch : String → Option (List String)) : List String → String
  | [] => ""
  | q :: rest =>
    match fallbackVariantHit fetch q with
    | some out => out
    | none => fallbackGo fetch rest

/-- `wikipedia_fallback`: try every query variant in order. -/
def wikipedia_fallback (fetch : String → Option (List String)) (query : String) : String :=
  if query = "" then "" else fallbackGo fetch (normalize_query_variants query)

/-! ## `lookup_one` -/

/-- The result dict of `lookup_one`.  `Banned_In` is optional because the
substituted "No data" record of `main` carries no `Banned_In` key at all:
`none` models an absent key, while the Python string `"None"` is
`some "None"`. -/
structure Record where
  Ingredient : String
  Canonical_Name : String
  Description : String
  Sources : String
  Banned_In : Option String
deriving DecidableEq, Repr

/-- `re.sub(r'[\s\-]+', '', ·)`: delete every whitespace or hyphen. -/
def stripSpaceHyphen (s : String) : String :=
  String.mk (s.data.filter (fun c => !(c.isWhitespace || c = '-')))

/-- The banned-substances block of `lookup_one`: the value of `Banned_In`
after `v = banned_lookup.get(canonical) or banned_lookup.get(re.sub(...))`
and `if v: out["Banned_In"] = v` (starting from the `"None"` default). -/
def bannedValue (banned_lookup : String → Option String) (canonical : String) : Option String :=
  let v := pyOrStr (banned_lookup canonical) (banned_lookup (stripSpaceHyphen canonical))
  if pyTruthyStr v then v else some "None"

/-- Case 1 of `lookup_one`: the INS/E-code (regulatory) stage.  Consults
only the tables, never a network adapter. -/
def insStage (ins_data : String → Option InsEntry) (banned_lookup : String → Option String)
    (orig canonical : String) (banned0 : Option String) (ins_num : String) : Record :=
  match entryOr (ins_data ins_num) (FALLBACK_INS ins_num) with
  | some entry =>
    let nameKey := normalize_key (entry.name.getD "")
    { Ingredient := orig, Canonical_Name := canonical,
      Description := build_ins_description entry ins_num,
      Sources := if (ins_data ins_num).isSome then "Wikipedia INS" else "Fallback",
      Banned_In := match banned_lookup nameKey with
        | some bv => some bv
        | none => banned0 }
  | none =>
    { Ingredient := orig, Canonical_Name := canonical,
      Description := "No food-specific data available.", Sources := "None",
      Banned_In := banned0 }

/-- Cases 2–4 of `lookup_one`: DuckDuckGo, then Wikipedia summary (with an
HTML-fallback retry when the summary is not culinary), then the HTML
fallback as last resort, then the exhaustion sentinel. -/
def webStages (ddgF : String → Option DdgResponse) (wikiS : String → Option String)
    (wikiP : String → Option (List String)) (orig canonical : String)
    (banned0 : Option String) : Record :=
  let ddg_text := ddg_api_snippet ddgF orig
  if ddg_text ≠ "" then
    { Ingredient := orig, Canonical_Name := canonical,
      Description := pySlice (first_sentences ddg_text 2) 400,
      Sources := "DuckDuckGo", Banned_In := banned0 }
  else
    let summary := wikipedia_summary wikiS orig
    let viaSummary : Option Record :=
      if summary ≠ "" then
        if looks_like_food_use summary then
          some { Ingredient := orig, Canonical_Name := canonical,
                 Description := pySlice (first_sentences summary 2) 400,
                 Sources := "Wikipedia Summary", Banned_In := banned0 }
        else
          let fallback_txt := wikipedia_fallback wikiP orig
          if fallback_txt ≠ "" then
            some { Ingredient := orig, Canonical_Name := canonical,
                   Description := pySlice (first_sentences fallback_txt 2) 400,
                   Sources := "Wikipedia (HTML Fallback)", Banned_In := banned0 }
          else none
      else none
    match viaSummary with
    | some r => r
    | none =>
      let fallback := wikipedia_fallback wikiP orig
      if fallback ≠ "" then
        { Ingredient := orig, Canonical_Name := canonical,
          Description := pySlice (first_sentences fallback 2) 400,
          Sources := "Wikipedia (HTML Fallback)", Banned_In := banned0 }
      else
        { Ingredient := orig, Canonical_Name := canonical,
          Description := "No food-specific data available.", Sources := "None",
          Banned_In := banned0 }

/-- `lookup_one`.  The three oracles are the network backends of the three
adapters; the empty-input early return precedes every lookup stage. -/
def lookup_one (ddgF : String → Option DdgResponse) (wikiS : String → Option String)
    (wikiP : String → Option (List String)) (ingredient : String)
    (ins_data : String → Option InsEntry) (banned_lookup : String → Option String) : Record :=
  let orig := pyStrip ingredient
  let canonical := normalize_key orig
  if orig = "" then
    { Ingredient := orig, Canonical_Name := canonical, Description := "",
      Sources := "None", Banned_In := some "None" }
  else
    let banned0 := bannedValue banned_lookup canonical
    match numeric_ins_from_token orig with
    | some ins_num => insStage ins_data banned_lookup orig canonical banned0 ins_num
    | none => webStages ddgF wikiS wikiP orig canonical banned0

/-! ## The batch operation of `main`

`main` submits one `lookup_one` task per input position, gathers the
completions, keys them by the record's `Ingredient` field (the *stripped*
input) and re-emits one record per input position by looking the *raw*
input string up in that dict, substituting a `"No data"` record on a miss.
`lookup_one` is a pure function of its arguments here, and records with
equal `Ingredient` keys are equal, so the dict is the same whatever the
completion order; the completions are therefore modelled in input order. -/

/-- One completed result per input position (`ex.submit` per element). -/
def batchResults (ddgF : String → Option DdgResponse) (wikiS : String → Option String)
    (wikiP : String → Option (List String)) (ins_data : String → Option InsEntry)
    (banned_lookup : String → Option String) (ingredients : List String) : List Record :=
  ingredients.map (fun ing => lookup_one ddgF wikiS wikiP ing ins_data banned_lookup)

/-- `res_map = {r["Ingredient"]: r for r in results}` followed by
`res_map.get(i)`: with a later record overwriting an earlier one under the
same key, the lookup returns the last record whose `Ingredient` equals the
raw input. -/
def resMapGet (results : List Record) (i : String) : Option Record :=
  results.reverse.find? (fun r => r.Ingredient == i)

/-- The substituted record of `main`'s reassembly for an input missing from
the completion dict (it carries no `Banned_In` key). -/
def noDataRecord (i : String) : Record :=
  { Ingredient := i, Canonical_Name := normalize_key i, Description := "No data",
    Sources := "None", Banned_In := none }

/-- The fan-out/reassembly of `main` over arbitrary tables. -/
def run_batch (ddgF : String → Option DdgResponse) (wikiS : String → Option String)
    (wikiP : String → Option (List String)) (ingredients : List String)
    (ins_data : String → Option InsEntry) (banned_lookup : String → Option String) :
    List Record :=
  let results := batchResults ddgF wikiS wikiP ins_data banned_lookup ingredients
  ingredients.map (fun i => (resMapGet results i).getD (noDataRecord i))

/-- The batch operation exactly as `main` runs it: `ins_data = {}` and
`banned_lookup = {}`. -/
def main_batch (ddgF : String → Option DdgResponse) (wikiS : String → Option String)
    (wikiP : String → Option (List String)) (ingredients : List String) : List Record :=
  run_batch ddgF wikiS wikiP ingredients (fun _ => none) (fun _ => none)

/-! ## `get_with_retries`

The network is an oracle from the attempt index to that attempt's outcome:
a response with its status code, or a raised exception (network failure or
timeout).  The run returns the result (`none` models returning Python
`None`; the function has no raising outcome at all for a failing attempt),
the number of attempts issued, and the slept back-off delays in seconds,
in order. -/

inductive AttemptOutcome where
  | ok (status : Nat)
  | failed
deriving DecidableEq, Repr

def get_with_retries_go (oracle : Nat → AttemptOutcome) :
    Nat → Nat → List ℚ → Option Nat × Nat × List ℚ
  | 0, attempt, delays => (none, attempt, delays.reverse)
  | remaining + 1, attempt, delays =>
    match oracle attempt with
    | .ok status =>
      if status = 200 then (some status, attempt + 1, delays.reverse)
      else get_with_retries_go oracle remaining (attempt + 1) delays
    | .failed =>
      get_with_retries_go oracle remaining (attempt + 1)
        (((12 : ℚ) / 10) * (attempt + 1) :: delays)

/-- `get_with_retries`: up to `tries` attempts; a 200 response returns it,
a non-200 response retries without sleeping, an exception sleeps
`1.2 * (attempt + 1)` seconds and retries; exhaustion returns `None`. -/
def get_with_retries (oracle : Nat → AttemptOutcome) (tries : Nat) :
    Option Nat × Nat × List ℚ :=
  get_with_retries_go oracle tries 0 []

/-! ## Characterization lemmas -/

theorem numeric_ins_empty : numeric_ins_from_token "" = none := rfl

/-- A whitespace-only (or empty) input takes the early return before any
lookup stage. -/
theorem lookup_one_of_strip_empty (d : String → Option DdgResponse)
    (w : String → Option String) (p : String → Option (List String)) (ing : String)
    (insd : String → Option InsEntry) (b : String → Option String)
    (h : pyStrip ing = "") :
    lookup_one d w p ing insd b =
      { Ingredient := "", Canonical_Name := "", Description := "",
        Sources := "None", Banned_In := some "None" } := by
  simp only [lookup_one, h]
  rfl

/-- An input whose stripped text matches the additive-code pattern is
resolved entirely by the regulatory stage. -/
theorem lookup_one_ins (d : String → Option DdgResponse) (w : String → Option String)
    (p : String → Option (List String)) (ing : String) (insd : String → Option InsEntry)
    (b : String → Option String) (n : String)
    (h : numeric_ins_from_token (pyStrip ing) = some n) :
    lookup_one d w p ing insd b =
      insStage insd b (pyStrip ing) (normalize_key (pyStrip ing))
        (bannedValue b (normalize_key (pyStrip ing))) n := by
  have hne : pyStrip ing ≠ "" := by
    intro he
    rw [he, numeric_ins_empty] at h
    cases h
  simp only [lookup_one, if_neg hne, h]

/-- A non-blank input not matching the additive-code pattern goes through
the web stages. -/
theorem lookup_one_web (d : String → Option DdgResponse) (w : String → Option String)
    (p : String → Option (List String)) (ing : String) (insd : String → Option InsEntry)
    (b : String → Option String) (h1 : pyStrip ing ≠ "")
    (h2 : numeric_ins_from_token (pyStrip ing) = none) :
    lookup_one d w p ing insd b =
      webStages d w p (pyStrip ing) (normalize_key (pyStrip ing))
        (bannedValue b (normalize_key (pyStrip ing))) := by
  simp only [lookup_one, if_neg h1, h2]

theorem insStage_Ingredient (insd : String → Option InsEntry) (b : String → Option String)
    (orig canonical : String) (b0 : Option String) (n : String) :
    (insStage insd b orig canonical b0 n).Ingredient = orig := by
  unfold insStage
  split <;> rfl

theorem webStages_Ingredient (d : String → Option DdgResponse) (w : String → Option String)
    (p : String → Option (List String)) (orig canonical : String) (b0 : Option String) :
    (webStages d w p orig canonical b0).Ingredient = orig := by
  by_cases h1 : ddg_api_snippet d orig = ""
  · by_cases h2 : wikipedia_summary w orig = ""
    · by_cases h3 : wikipedia_fallback p orig = "" <;> simp [webStages, h1, h2, h3]
    · by_cases h4 : looks_like_food_use (wikipedia_summary w orig)
      · simp [webStages, h1, h2, h4]
      · by_cases h3 : wikipedia_fallback p orig = "" <;> simp [webStages, h1, h2, h4, h3]
  · simp [webStages, h1]

/-- The `Ingredient` field of every produced record is the stripped input. -/
theorem lookup_one_Ingredient (d : String → Option DdgResponse) (w : String → Option String)
    (p : String → Option (List String)) (ing : String) (insd : String → Option InsEntry)
    (b : String → Option String) :
    (lookup_one d w p ing insd b).Ingredient = pyStrip ing := by
  by_cases h : pyStrip ing = ""
  · rw [lookup_one_of_strip_empty d w p ing insd b h, h]
  · cases hn : numeric_ins_from_token (pyStrip ing) with
    | some n => rw [lookup_one_ins d w p ing insd b n hn, insStage_Ingredient]
    | none => rw [lookup_one_web d w p ing insd b h hn, webStages_Ingredient]

/-- Every description the web stages produce is either the exhaustion
sentinel or a two-sentence truncation of some non-empty adapter text. -/
theorem webStages_desc (d : String → Option DdgResponse) (w : String → Option String)
    (p : String → Option (List String)) (orig canonical : String) (b0 : Option String) :
    (webStages d w p orig canonical b0).Description = "No food-specific data available." ∨
    ∃ t, t ≠ "" ∧
      (webStages d w p orig canonical b0).Description = pySlice (first_sentences t 2) 400 := by
  by_cases h1 : ddg_api_snippet d orig = ""
  · by_cases h2 : wikipedia_summary w orig = ""
    · by_cases h3 : wikipedia_fallback p orig = ""
      · left
        simp [webStages, h1, h2, h3]
      · right
        exact ⟨wikipedia_fallback p orig, h3, by simp [webStages, h1, h2, h3]⟩
    · by_cases h4 : looks_like_food_use (wikipedia_summary w orig)
      · right
        exact ⟨wikipedia_summary w orig, h2, by simp [webStages, h1, h2, h4]⟩
      · by_cases h3 : wikipedia_fallback p orig = ""
        · left
          simp [webStages, h1, h2, h4, h3]
        · right
          exact ⟨wikipedia_fallback p orig, h3, by simp [webStages, h1, h2, h4, h3]⟩
  · right
    exact ⟨ddg_api_snippet d orig, h1, by simp [webStages, h1]⟩

/-! ## Period and length lemmas -/

theorem endsWithDot_append_dot (s : String) : endsWithDot (s ++ ".") = true := by
  have hd : (s ++ ".").data = s.data ++ ['.'] := rfl
  simp [endsWithDot, hd, List.getLast?_concat]

/-- `first_sentences` of a non-empty text always ends with a period. -/
theorem first_sentences_endsWithDot (text : String) (h : text ≠ "") :
    endsWithDot (first_sentences text 2) = true := by
  unfold first_sentences
  rw [if_neg h]
  by_cases hd : endsWithDot (pyStrip (pyJoin ". " ((pySplitOn text ". ").take 2))) = true
  · simp [hd]
  · simp [hd, endsWithDot_append_dot]

theorem pySlice_length_le (s : String) (n : Nat) : (pySlice s n).length ≤ n := by
  show (s.data.take n).length ≤ n
  rw [List.length_take]
  exact Nat.min_le_left _ _

/-- Truncating at 400 either keeps the whole string (hence its final
period) or produces exactly 400 characters. -/
theorem pySlice_endsWithDot_or_len (s : String) (h : endsWithDot s = true) :
    endsWithDot (pySlice s 400) = true ∨ (pySlice s 400).length = 400 := by
  rcases le_or_lt s.data.length 400 with hle | hlt
  · left
    have he : pySlice s 400 = s := by
      show String.mk (s.data.take 400) = s
      rw [List.take_of_length_le hle]
    rw [he]
    exact h
  · right
    show (s.data.take 400).length = 400
    rw [List.length_take]
    exact Nat.min_eq_left (Nat.le_of_lt hlt)

/-- A built-in-table description is short (both curated entries). -/
theorem fallback_ins_desc_len (n : String) (e : InsEntry) (h : FALLBACK_INS n = some e) :
    (build_ins_description e n).length ≤ 400 := by
  unfold FALLBACK_INS at h
  split_ifs at h with h1 h2
  · cases h
    subst h1
    decide
  · cases h
    subst h2
    decide

/-! ## Adapter loops: first success over the iterated key list -/

theorem summaryGo_eq_firstHit (f : String → Option String) (l : List String) :
    summaryGo f l = ((l.filterMap (summaryVariantHit f)).head?).getD "" := by
  induction l with
  | nil => rfl
  | cons q rest ih =>
    rw [summaryGo, List.filterMap_cons]
    cases h : summaryVariantHit f q with
    | some out => simp
    | none => simpa using ih

theorem fallbackGo_eq_firstHit (f : String → Option (List String)) (l : List String) :
    fallbackGo f l = ((l.filterMap (fallbackVariantHit f)).head?).getD "" := by
  induction l with
  | nil => rfl
  | cons q rest ih =>
    rw [fallbackGo, List.filterMap_cons]
    cases h : fallbackVariantHit f q with
    | some out => simp
    | none => simpa using ih

theorem ddgGo_eq_firstHit (f : String → Option DdgResponse) (l : List String) :
    ddgGo f l = ((l.filterMap (ddgQueryHit f)).head?).getD "" := by
  induction l with
  | nil => rfl
  | cons q rest ih =>
    rw [ddgGo, List.filterMap_cons]
    cases h : ddgQueryHit f q with
    | some out => simp
    | none => simpa using ih

/-! ## Batch reassembly -/

/-- For an input that is already stripped, the reassembly dict holds
exactly that input's own resolution record (duplicates resolve to equal
records, so any completion/overwrite order gives this value). -/
theorem resMapGet_batch (d : String → Option DdgResponse) (w : String → Option String)
    (p : String → Option (List String)) (insd : String → Option InsEntry)
    (b : String → Option String) (ingredients : List String) (i : String)
    (hall : ∀ j ∈ ingredients, pyStrip j = j) (hi : i ∈ ingredients) :
    resMapGet (batchResults d w p insd b ingredients) i = some (lookup_one d w p i insd b) := by
  unfold resMapGet batchResults
  have hpred : ((lookup_one d w p i insd b).Ingredient == i) = true := by
    rw [lookup_one_Ingredient, hall i hi]
    simp
  have hsome :
      (((ingredients.map (fun ing => lookup_one d w p ing insd b)).reverse.find?
        (fun r => r.Ingredient == i))).isSome := by
    rw [List.find?_isSome]
    exact ⟨lookup_one d w p i insd b,
      by rw [List.mem_reverse]; exact List.mem_map_of_mem _ hi, hpred⟩
  obtain ⟨r, hr⟩ := Option.isSome_iff_exists.mp hsome
  have hfound := List.find?_some hr
  have hmem := List.mem_of_find?_eq_some hr
  rw [List.mem_reverse] at hmem
  obtain ⟨i', hi', hri⟩ := List.mem_map.mp hmem
  have hstrip : pyStrip i' = i' := hall i' hi'
  have hIng : r.Ingredient = i' := by
    rw [← hri, lookup_one_Ingredient, hstrip]
  have : i' = i := by
    rw [hIng] at hfound
    exact eq_of_beq hfound
  rw [hr, ← hri, this]

/-! ## Claims -/

/-- C2: an input whose text matches the numeric additive-code pattern
terminates in the regulatory stage: the result is identical under every
choice of web-search/encyclopedia-summary/encyclopedia-page oracle (no
adapter is ever consulted); on a table hit the description is the one
built from the entry, and on a table miss the record carries the
`"No food-specific data available."` description and source tag `"None"`. -/
theorem c2_additive_code_regulatory_terminal
    (d d' : String → Option DdgResponse) (w w' : String → Option String)
    (p p' : String → Option (List String)) (ing : String)
    (insd : String → Option InsEntry) (b : String → Option String) (n : String)
    (h : numeric_ins_from_token (pyStrip ing) = some n) :
    lookup_one d w p ing insd b = lookup_one d' w' p' ing insd b ∧
    (∀ e, entryOr (insd n) (FALLBACK_INS n) = some e →
      (lookup_one d w p ing insd b).Description = build_ins_description e n) ∧
    (entryOr (insd n) (FALLBACK_INS n) = none →
      (lookup_one d w p ing insd b).Description = "No food-specific data available." ∧
      (lookup_one d w p ing insd b).Sources = "None") := by
  rw [lookup_one_ins d w p ing insd b n h, lookup_one_ins d' w' p' ing insd b n h]
  refine ⟨rfl, ?_, ?_⟩
  · intro e he
    unfold insStage
    rw [he]
  · intro he
    unfold insStage
    rw [he]
    exact ⟨rfl, rfl⟩

theorem c2_additive_code_regulatory_terminal_witness :
    (lookup_one (fun _ => none) (fun _ => none) (fun _ => none) "E621"
        (fun _ => none) (fun _ => none)).Description =
      build_ins_description
        ⟨some "Monosodium glutamate", some "flavour enhancer", some "USA, European Union, India"⟩
        "621" :=
  (c2_additive_code_regulatory_terminal (fun _ => none) (fun _ => none) (fun _ => none)
    (fun _ => none) (fun _ => none) (fun _ => none) "E621" (fun _ => none) (fun _ => none)
    "621" (by decide)).2.1 _ (by decide)

/-- C5: with 3 tries against a target whose every attempt raises a network
failure, `get_with_retries` issues exactly 3 attempts, sleeps
`1.2 × attempt_number` seconds after each failure (a non-decreasing delay
sequence), and returns the no-response value `none` instead of raising
(the embedding's failed attempts have no raising outcome at all). -/
theorem c5_retry_exhaustion (oracle : Nat → AttemptOutcome)
    (h : ∀ k, oracle k = AttemptOutcome.failed) :
    get_with_retries oracle 3 =
      (none, 3, [((12 : ℚ) / 10) * 1, ((12 : ℚ) / 10) * 2, ((12 : ℚ) / 10) * 3]) ∧
    List.Chain' (· ≤ ·) (get_with_retries oracle 3).2.2 := by
  have e : get_with_retries oracle 3 =
      (none, 3, [((12 : ℚ) / 10) * 1, ((12 : ℚ) / 10) * 2, ((12 : ℚ) / 10) * 3]) := by
    simp [get_with_retries, get_with_retries_go, h 0, h 1, h 2]
    norm_num
  refine ⟨e, ?_⟩
  rw [e]
  norm_num

theorem c5_retry_exhaustion_witness :
    get_with_retries (fun _ => AttemptOutcome.failed) 3 =
      (none, 3, [((12 : ℚ) / 10) * 1, ((12 : ℚ) / 10) * 2, ((12 : ℚ) / 10) * 3]) :=
  (c5_retry_exhaustion (fun _ => AttemptOutcome.failed) (fun _ => rfl)).1

/-- C7: `normalize_query_variants` yields a finite ordered list whose first
element is the (trimmed) input unchanged; for `"turmeric powder"` it yields
`"turmeric powder"` first with `"turmeric"` among the later variants, and
for `"spices"` it includes `"spice"`. -/
theorem c7_variant_generation :
    (∀ q : String, pyStrip q = q → (normalize_query_variants q).head? = some q) ∧
    normalize_query_variants "turmeric powder" =
      ["turmeric powder", "turmeric", "turmeric", "turmeric powders"] ∧
    "turmeric" ∈ (normalize_query_variants "turmeric powder").drop 1 ∧
    "spice" ∈ normalize_query_variants "spices" := by
  refine ⟨?_, by decide, by decide, by decide⟩
  intro q hq
  simp only [normalize_query_variants, List.head?_cons, hq]

theorem c7_variant_generation_witness :
    (normalize_query_variants "turmeric powder").head? = some "turmeric powder" :=
  c7_variant_generation.1 "turmeric powder" (by decide)

/-- C8: the food-relevance classifier accepts
`"used as a preservative in baked goods"`, rejects
`"a perennial flowering plant native to Asia"`, and rejects empty input. -/
theorem c8_food_relevance_examples :
    looks_like_food_use "used as a preservative in baked goods" = true ∧
    looks_like_food_use "a perennial flowering plant native to Asia" = false ∧
    looks_like_food_use "" = false := by
  refine ⟨by decide, by decide, rfl⟩

/-- C9: an empty or whitespace-only input returns, before any lookup stage
is consulted (the result is a constant independent of every oracle and
table), the record with empty `Ingredient`, empty `Description` (not the
no-data sentinel), and `"None"` in `Sources` and `Banned_In`. -/
theorem c9_blank_input_record (d : String → Option DdgResponse)
    (w : String → Option String) (p : String → Option (List String)) (ing : String)
    (insd : String → Option InsEntry) (b : String → Option String)
    (h : pyStrip ing = "") :
    lookup_one d w p ing insd b =
      { Ingredient := "", Canonical_Name := "", Description := "",
        Sources := "None", Banned_In := some "None" } ∧
    (lookup_one d w p ing insd b).Description ≠ "No food-specific data available." := by
  have he := lookup_one_of_strip_empty d w p ing insd b h
  exact ⟨he, by rw [he]; decide⟩

theorem c9_blank_input_record_witness :
    lookup_one (fun _ => none) (fun _ => none) (fun _ => none) "   "
        (fun _ => none) (fun _ => none) =
      { Ingredient := "", Canonical_Name := "", Description := "",
        Sources := "None", Banned_In := some "None" } :=
  (c9_blank_input_record (fun _ => none) (fun _ => none) (fun _ => none) "   "
    (fun _ => none) (fun _ => none) (by decide)).1

/-- C10: the additive-code test is an unanchored, case-insensitive search:
`"clove 5"` (lowercase `e` of `clove`, mid-string, followed by a space and
a digit) yields code `"5"`; every input whose stripped text matches
anywhere is resolved by the regulatory stage alone — the result equals the
regulatory-stage record and is invariant under every choice of
web-search/encyclopedia oracles, so the web stages are never reached. -/
theorem c10_unanchored_code_search :
    numeric_ins_from_token "clove 5" = some "5" ∧
    (∀ (d d' : String → Option DdgResponse) (w w' : String → Option String)
       (p p' : String → Option (List String)) (ing : String)
       (insd : String → Option InsEntry) (b : String → Option String) (n : String),
      numeric_ins_from_token (pyStrip ing) = some n →
        lookup_one d w p ing insd b =
          insStage insd b (pyStrip ing) (normalize_key (pyStrip ing))
            (bannedValue b (normalize_key (pyStrip ing))) n ∧
        lookup_one d w p ing insd b = lookup_one d' w' p' ing insd b) ∧
    (lookup_one
        (fun _ => some ⟨some "Used as a spice in food.", none, none, none, []⟩)
        (fun _ => some "Used as a spice in food.")
        (fun _ => some ["Used as a spice in food."])
        "clove 5" (fun _ => none) (fun _ => none)).Description =
      "No food-specific data available." := by
  refine ⟨by decide, ?_, by decide⟩
  intro d d' w w' p p' ing insd b n h
  rw [lookup_one_ins d w p ing insd b n h, lookup_one_ins d' w' p' ing insd b n h]
  exact ⟨rfl, rfl⟩

theorem c10_unanchored_code_search_witness :
    lookup_one (fun _ => none) (fun _ => none) (fun _ => none) "clove 5"
        (fun _ => none) (fun _ => none) =
      insStage (fun _ => none) (fun _ => none) (pyStrip "clove 5")
        (normalize_key (pyStrip "clove 5"))
        (bannedValue (fun _ => none) (normalize_key (pyStrip "clove 5"))) "5" :=
  (c10_unanchored_code_search.2.1 (fun _ => none) (fun _ => none) (fun _ => none)
    (fun _ => none) (fun _ => none) (fun _ => none) "clove 5" (fun _ => none)
    (fun _ => none) "5" (by decide)).1

/-- C6: a non-blank, non-additive-code ingredient for which all three
adapters yield no text resolves to a normal record with the exhaustion
sentinel description and source tag `"None"`, and the batch call still
returns one record per input position. -/
theorem c6_total_failure_sentinel (d : String → Option DdgResponse)
    (w : String → Option String) (p : String → Option (List String))
    (insd : String → Option InsEntry) (b : String → Option String) (ing : String)
    (ingredients : List String)
    (h1 : pyStrip ing ≠ "") (h2 : numeric_ins_from_token (pyStrip ing) = none)
    (h3 : ddg_api_snippet d (pyStrip ing) = "")
    (h4 : wikipedia_summary w (pyStrip ing) = "")
    (h5 : wikipedia_fallback p (pyStrip ing) = "") :
    ((lookup_one d w p ing insd b).Description = "No food-specific data available." ∧
     (lookup_one d w p ing insd b).Sources = "None") ∧
    (run_batch d w p ingredients insd b).length = ingredients.length := by
  constructor
  · rw [lookup_one_web d w p ing insd b h1 h2]
    constructor <;> simp [webStages, h3, h4, h5]
  · simp [run_batch]

theorem c6_total_failure_sentinel_witness :
    ((lookup_one (fun _ => none) (fun _ => none) (fun _ => none) "saffron"
        (fun _ => none) (fun _ => none)).Description = "No food-specific data available." ∧
     (lookup_one (fun _ => none) (fun _ => none) (fun _ => none) "saffron"
        (fun _ => none) (fun _ => none)).Sources = "None") ∧
    (run_batch (fun _ => none) (fun _ => none) (fun _ => none) ["saffron"]
        (fun _ => none) (fun _ => none)).length = (["saffron"] : List String).length :=
  c6_total_failure_sentinel (fun _ => none) (fun _ => none) (fun _ => none)
    (fun _ => none) (fun _ => none) "saffron" ["saffron"]
    (by decide) (by decide) (by decide) (by decide) (by decide)

/-- C4 (amended): each adapter iterates its own key list in order and
stops at its first success — the two encyclopedia adapters iterate the
query variants, while the web-search adapter iterates its six food-biased
rewrites of the original phrase, not the query variants. -/
theorem c4_adapter_iteration :
    (∀ (f : String → Option String) (q : String), q ≠ "" →
      wikipedia_summary f q =
        (((normalize_query_variants q).filterMap (summaryVariantHit f)).head?).getD "") ∧
    (∀ (f : String → Option (List String)) (q : String), q ≠ "" →
      wikipedia_fallback f q =
        (((normalize_query_variants q).filterMap (fallbackVariantHit f)).head?).getD "") ∧
    (∀ (f : String → Option DdgResponse) (q : String),
      ddg_api_snippet f q =
        (((ddg_queries q).filterMap (ddgQueryHit f)).head?).getD "") := by
  refine ⟨?_, ?_, ?_⟩
  · intro f q hq
    unfold wikipedia_summary
    rw [if_neg hq]
    exact summaryGo_eq_firstHit f _
  · intro f q hq
    unfold wikipedia_fallback
    rw [if_neg hq]
    exact fallbackGo_eq_firstHit f _
  · intro f q
    exact ddgGo_eq_firstHit f _

theorem c4_adapter_iteration_witness :
    wikipedia_summary (fun _ => none) "salt" =
      (((normalize_query_variants "salt").filterMap
        (summaryVariantHit (fun _ => none))).head?).getD "" :=
  c4_adapter_iteration.1 (fun _ => none) "salt" (by decide)

/-- A DuckDuckGo payload whose abstract passes the food-relevance check. -/
def turmericResponse : DdgResponse :=
  ⟨some "Turmeric is used as a spice in food.", none, none, none, []⟩

/-- C4 counterexample: an oracle that answers every query *except* the six
rewrites actually issued — in particular it answers every query variant of
`"turmeric powder"` with a food-relevant abstract — still gets an empty
result from the web-search adapter, though the same payload yields a hit
when it is actually served; the adapter therefore does not try the query
variants. -/
theorem c4_websearch_ignores_variants :
    ddg_api_snippet
      (fun q => if (ddg_queries "turmeric powder").contains q then none
                else some turmericResponse)
      "turmeric powder" = "" ∧
    ((normalize_query_variants "turmeric powder").all
      (fun v => ((fun q => if (ddg_queries "turmeric powder").contains q then none
                           else some turmericResponse) v).isSome)) = true ∧
    ddg_api_snippet (fun _ => some turmericResponse) "turmeric powder" =
      "Turmeric is used as a spice in food." := by
  refine ⟨by decide, by decide, by decide⟩

/-- C1 (amended): for every non-empty input list the batch operation of
`main` returns exactly one record per input position, in input order; and
when every input string is already stripped (no leading/trailing
whitespace), the record at each position is that position's own
`lookup_one` resolution — in particular a duplicated input string gets a
record at each of its positions.  (For an input with surrounding
whitespace the reassembly, which keys completions by the *stripped*
text, misses and substitutes the `"No data"` record instead.) -/
theorem c1_batch_order_and_positions (d : String → Option DdgResponse)
    (w : String → Option String) (p : String → Option (List String))
    (ingredients : List String) (_hne : ingredients ≠ []) :
    (main_batch d w p ingredients).length = ingredients.length ∧
    ((∀ i ∈ ingredients, pyStrip i = i) →
      main_batch d w p ingredients =
        ingredients.map (fun i =>
          lookup_one d w p i (fun _ => none) (fun _ => none))) := by
  constructor
  · simp [main_batch, run_batch]
  · intro hall
    show List.map _ ingredients = _
    refine List.map_congr_left ?_
    intro i hi
    rw [resMapGet_batch d w p (fun _ => none) (fun _ => none) ingredients i hall hi]
    rfl

theorem c1_batch_order_and_positions_witness :
    (main_batch (fun _ => none) (fun _ => none) (fun _ => none)
      ["salt", "salt"]).length = (["salt", "salt"] : List String).length ∧
    main_batch (fun _ => none) (fun _ => none) (fun _ => none) ["salt", "salt"] =
      (["salt", "salt"] : List String).map (fun i =>
        lookup_one (fun _ => none) (fun _ => none) (fun _ => none) i
          (fun _ => none) (fun _ => none)) :=
  ⟨(c1_batch_order_and_positions (fun _ => none) (fun _ => none) (fun _ => none)
      ["salt", "salt"] (by decide)).1,
   (c1_batch_order_and_positions (fun _ => none) (fun _ => none) (fun _ => none)
      ["salt", "salt"] (by decide)).2 (by decide)⟩

/-- C1 counterexample: the claim as stated fails for an input with
trailing whitespace.  For the duplicate input `"x "` the batch output
holds, at both positions, the substituted `"No data"` record (whose
`Ingredient` is the raw string and which carries no `Banned_In` key), not
the record its own resolution produced (stripped `Ingredient` `"x"`,
exhaustion-sentinel description). -/
theorem c1_untrimmed_duplicate_counterexample :
    main_batch (fun _ => none) (fun _ => none) (fun _ => none) ["x ", "x "] =
      [noDataRecord "x ", noDataRecord "x "] ∧
    noDataRecord "x " ≠
      lookup_one (fun _ => none) (fun _ => none) (fun _ => none) "x "
        (fun _ => none) (fun _ => none) ∧
    (noDataRecord "x ").Description = "No data" ∧
    (lookup_one (fun _ => none) (fun _ => none) (fun _ => none) "x "
      (fun _ => none) (fun _ => none)).Description = "No food-specific data available." := by
  refine ⟨by decide, by decide, by decide, by decide⟩

/-- C3 (amended): with no externally supplied code table (as `main`
runs) every description `lookup_one` produces is at most 400 characters;
a non-empty description ends with a period except that (a) a
regulatory-stage description, built by `build_ins_description` from a
curated entry, does not end with a period, and (b) a search/encyclopedia
description truncated at exactly the 400-character cap may lose its final
period. -/
theorem c3_description_bounds (d : String → Option DdgResponse)
    (w : String → Option String) (p : String → Option (List String))
    (b : String → Option String) (ing : String) :
    ((lookup_one d w p ing (fun _ => none) b).Description).length ≤ 400 ∧
    ((lookup_one d w p ing (fun _ => none) b).Description = "" ∨
     endsWithDot ((lookup_one d w p ing (fun _ => none) b).Description) = true ∨
     ((lookup_one d w p ing (fun _ => none) b).Description).length = 400 ∨
     ∃ n e, numeric_ins_from_token (pyStrip ing) = some n ∧ FALLBACK_INS n = some e ∧
       (lookup_one d w p ing (fun _ => none) b).Description =
         build_ins_description e n) := by
  by_cases h0 : pyStrip ing = ""
  · rw [lookup_one_of_strip_empty d w p ing (fun _ => none) b h0]
    exact ⟨by decide, Or.inl rfl⟩
  · cases hn : numeric_ins_from_token (pyStrip ing) with
    | some n =>
      rw [lookup_one_ins d w p ing (fun _ => none) b n hn]
      unfold insStage
      cases hf : FALLBACK_INS n with
      | some e =>
        exact ⟨fallback_ins_desc_len n e hf,
          Or.inr (Or.inr (Or.inr ⟨n, e, rfl, hf, rfl⟩))⟩
      | none =>
        refine ⟨?_, Or.inr (Or.inl ?_)⟩
        · show ("No food-specific data available." : String).length ≤ 400
          decide
        · show endsWithDot "No food-specific data available." = true
          decide
    | none =>
      rw [lookup_one_web d w p ing (fun _ => none) b h0 hn]
      rcases webStages_desc d w p (pyStrip ing) (normalize_key (pyStrip ing))
          (bannedValue b (normalize_key (pyStrip ing))) with hs | ⟨t, ht, heq⟩
      · rw [hs]
        exact ⟨by decide, Or.inr (Or.inl (by decide))⟩
      · rw [heq]
        refine ⟨pySlice_length_le _ _, ?_⟩
        rcases pySlice_endsWithDot_or_len (first_sentences t 2)
            (first_sentences_endsWithDot t ht) with hdot | hlen
        · exact Or.inr (Or.inl hdot)
        · exact Or.inr (Or.inr (Or.inl hlen))

/-- C3 counterexample: the regulatory stage's description for `"E621"`
(built by `build_ins_description` from the curated table) is non-empty,
is not the no-data sentinel, and does not end with a period, so the claim
as stated is false. -/
theorem c3_ins_description_no_period :
    (lookup_one (fun _ => none) (fun _ => none) (fun _ => none) "E621"
        (fun _ => none) (fun _ => none)).Description =
      "Monosodium glutamate (INS 621). is used as flavour enhancer. Approved in: USA, European Union, India" ∧
    endsWithDot ((lookup_one (fun _ => none) (fun _ => none) (fun _ => none) "E621"
        (fun _ => none) (fun _ => none)).Description) = false ∧
    (lookup_one (fun _ => none) (fun _ => none) (fun _ => none) "E621"
        (fun _ => none) (fun _ => none)).Description ≠ "" ∧
    (lookup_one (fun _ => none) (fun _ => none) (fun _ => none) "E621"
        (fun _ => none) (fun _ => none)).Description ≠
      "No food-specific data available." := by
  refine ⟨by decide, by decide, by decide, by decide⟩

end Scraper
